import Mathlib

/-!
Shallow embedding of the BTLogger application core (src/app.py and
src/bl_app.py): the 20-byte frame decoder `decode_sensor_data`, the
plot/buffer update `update_plot`, the notification handler, start/stop
capture * and the reset path, plus theorems checking the natural-language
specification against these definitions.

Python machine values are modelled as follows: bytes are `Nat`s below 256
in a `List Nat`; an IEEE-754 binary32 value read by `struct.unpack` is
decoded bit-exactly into `F32` (a rational for finite values, with
separate infinity and NaN constructors); Python `float` quantities that
the buffer code merely stores and moves are modelled as `ℚ`.
-/

set_option maxRecDepth 8192

instance {ε α : Type} [DecidableEq ε] [DecidableEq α] :
    DecidableEq (Except ε α) := fun a b =>
  match a, b with
  | .ok x, .ok y =>
      if h : x = y then .isTrue (by rw [h]) else .isFalse (by simp [h])
  | .error e, .error f =>
      if h : e = f then .isTrue (by rw [h]) else .isFalse (by simp [h])
  | .ok _, .error _ => .isFalse (by simp)
  | .error _, .ok _ => .isFalse (by simp)

namespace BTLogger

/-- An IEEE-754 binary32 value as Python sees it after `struct.unpack`.
Every finite binary32 value is an integer multiple of `2 ^ (-149)`, so
`finite n` represents the exact real value `n / 2 ^ 149`; infinities
carry their sign, NaN is opaque. -/
inductive F32 where
  | finite (n : ℤ)
  | inf (negative : Bool)
  | nan
deriving DecidableEq, Repr

/-- The scaling denominator of `F32.finite`: `finite n` is `n / f32Scale`. -/
def f32Scale : ℤ := 2 ^ 149

/-- Exact value of the binary32 datum whose 32-bit pattern is `w`
(sign bit 31, exponent bits 30–23, mantissa bits 22–0), in units of
`2 ^ (-149)`: subnormals are `m`, normals `(2 ^ 23 + m) * 2 ^ (e - 1)`
(that is, `(2 ^ 23 + m) * 2 ^ e / 2 ^ 150` scaled by `2 ^ 149`). -/
def f32ValOfBits (w : Nat) : F32 :=
  let s : Nat := w / 2 ^ 31 % 2
  let e : Nat := w / 2 ^ 23 % 256
  let m : Nat := w % 2 ^ 23
  if e = 255 then
    if m = 0 then .inf (s == 1) else .nan
  else
    let mag : ℤ :=
      if e = 0 then (m : ℤ)
      else ((2 ^ 23 + m : ℕ) : ℤ) * 2 ^ (e - 1)
    .finite (if s == 1 then -mag else mag)

/-- Python's chained comparison `lo <= x <= hi` on an unpacked float,
with the finite bounds given in units of `2 ^ (-149)` like `F32.finite`:
`False` on NaN and on either infinity. -/
def pyChainedLe (lo : ℤ) (x : F32) (hi : ℤ) : Bool :=
  match x with
  | .finite n => decide (lo ≤ n) && decide (n ≤ hi)
  | .inf _ => false
  | .nan => false

/-- Spec-side reading of "the decoded value lies outside the closed
interval [lo, hi]" (bounds again scaled by `2 ^ 149`): true for NaN and
infinities, and for finite values strictly below `lo` or strictly above
`hi`. -/
def F32.outsideIcc (x : F32) (lo hi : ℤ) : Bool :=
  match x with
  | .finite n => decide (n < lo) || decide (hi < n)
  | .inf _ => true
  | .nan => true

/-- The value of little-endian byte quadruple `b0 b1 b2 b3`. -/
def le32 (b0 b1 b2 b3 : Nat) : Nat :=
  b0 + 256 * (b1 + 256 * (b2 + 256 * b3))

/-- Byte `i` of a frame (frames reaching the unpack step have a known
length, so the default for an out-of-range index is never consulted in
the theorems below). -/
def byteAt (bs : List Nat) (i : Nat) : Nat := bs.getD i 0

/-- The little-endian 32-bit word starting at byte offset `i`,
as `struct.unpack "<Iffff"` reads each of the five fields. -/
def word32At (bs : List Nat) (i : Nat) : Nat :=
  le32 (byteAt bs i) (byteAt bs (i + 1)) (byteAt bs (i + 2)) (byteAt bs (i + 3))

/-- The decode failures of `decode_sensor_data`; each carries the raw
frame, mirroring the hex dump the Python error strings embed, and the
length error additionally reports the actual length. -/
inductive DecodeError where
  | length (actual : Nat) (raw : List Nat)
  | sentinel (raw : List Nat)
  | tempRange (t : F32) (raw : List Nat)
  | accelRange (x y z : F32) (raw : List Nat)
deriving DecidableEq, Repr

/-- Whether an error is one of the two out-of-range failures. -/
def DecodeError.isRange : DecodeError → Bool
  | .tempRange _ _ => true
  | .accelRange _ _ _ _ => true
  | _ => false

/-- A validated decoded frame, the dict
`{"weight": _, "temperature": _, "acceleration": (_, _, _)}`. -/
structure Sample where
  weight : Nat
  temperature : F32
  accel_x : F32
  accel_y : F32
  accel_z : F32
deriving DecidableEq, Repr

/-- The Python bound `temp_min = 0.0`, scaled by `2 ^ 149`. -/
def temp_min : ℤ := 0

/-- The Python bound `temp_max = 85.0`, scaled by `2 ^ 149`. -/
def temp_max : ℤ := 85 * 2 ^ 149

/-- The Python bound `accel_min = -8.0`, scaled by `2 ^ 149`. -/
def accel_min : ℤ := -8 * 2 ^ 149

/-- The Python bound `accel_max = 8.0`, scaled by `2 ^ 149`. -/
def accel_max : ℤ := 8 * 2 ^ 149

/-- `decode_sensor_data` (src/app.py lines 880–908, identical in
src/bl_app.py): reject a frame whose length is not 20; unpack
little-endian u32 weight then four f32 fields; reject the weight sentinel
0xFFFFFFFF; reject a temperature outside [0, 85]; reject any
acceleration component outside [-8, 8]; otherwise return the sample.
The `struct.error` branch is unreachable once the length is 20. -/
def decode_sensor_data (data : List Nat) : Except DecodeError Sample :=
  if data.length ≠ 20 then .error (.length data.length data)
  else
    let weight := word32At data 0
    let temp := f32ValOfBits (word32At data 4)
    let accel_x := f32ValOfBits (word32At data 8)
    let accel_y := f32ValOfBits (word32At data 12)
    let accel_z := f32ValOfBits (word32At data 16)
    if weight = 4294967295 then .error (.sentinel data)
    else if !(pyChainedLe temp_min temp temp_max) then
      .error (.tempRange temp data)
    else if !(pyChainedLe accel_min accel_x accel_max &&
              pyChainedLe accel_min accel_y accel_max &&
              pyChainedLe accel_min accel_z accel_max) then
      .error (.accelRange accel_x accel_y accel_z data)
    else .ok ⟨weight, temp, accel_x, accel_y, accel_z⟩

/-- The little-endian bytes of a 32-bit word. -/
def encodeWord (w : Nat) : List Nat :=
  [w % 256, w / 256 % 256, w / 2 ^ 16 % 256, w / 2 ^ 24 % 256]

/-- The spec's frame encoding: little-endian u32 weight followed by the
four f32 words temperature, accel_x, accel_y, accel_z. -/
def encodeSample (w t x y z : Nat) : List Nat :=
  encodeWord w ++ encodeWord t ++ encodeWord x ++ encodeWord y ++ encodeWord z

/-! ## Application state (src/app.py `BluetoothDashboard`)

The GUI widgets are external sinks per the spec; the model keeps the
core fields the claims are about. Python's `client` is non-`None`
exactly when `is_connected` holds in every reachable configuration, so
the transport handle is represented by `is_connected` alone. Transport
calls (`start_notify`, `stop_notify`) are external and may fail; each
modelled operation takes a `Bool` saying whether the awaited call
succeeded. `list.pop(0)` is modelled by `List.tail`; the two coincide on
non-empty lists, and every theorem below only visits states where the
popped list is non-empty. -/

/-- One raw entry of `self.data_points`: the dict with the
capture timestamp and the five measured values (stored Python floats are
modelled as exact rationals; the buffer code only moves them around). -/
structure DataPoint where
  time : ℚ
  weight : ℚ
  temperature : ℚ
  accel_x : ℚ
  accel_y : ℚ
  accel_z : ℚ
deriving DecidableEq, Repr

/-- One entry of `self.filtered_data_points` (same shape minus the
timestamp). -/
structure FPoint where
  weight : ℚ
  temperature : ℚ
  accel_x : ℚ
  accel_y : ℚ
  accel_z : ℚ
deriving DecidableEq, Repr

/-- A decoded frame as consumed by `update_plot` and the notification
handler (the `sensor_data` dict, values as rationals). -/
structure ValueSample where
  weight : ℚ
  temperature : ℚ
  accel_x : ℚ
  accel_y : ℚ
  accel_z : ℚ
deriving DecidableEq, Repr

/-- The filtered point holding the frame's own raw values: the default
before filtering and the fallback when the filter raises. -/
def rawFPoint (sd : ValueSample) : FPoint :=
  ⟨sd.weight, sd.temperature, sd.accel_x, sd.accel_y, sd.accel_z⟩

/-- A hot-loaded filter module: each capability is optional
(`hasattr` in the source), and an application may raise, modelled by
`Except String`. `filter_weight` receives the weight and accel_z
windows and returns a series; the scalar channels return a series whose
last element is taken. -/
structure FilterModule where
  filter_weight : Option (List ℚ → List ℚ → Except String (List ℚ))
  filter_temperature : Option (List ℚ → Except String (List ℚ))
  filter_accel :
    Option (List ℚ → List ℚ → List ℚ →
      Except String (List ℚ × List ℚ × List ℚ))
  filter_accel_x : Option (List ℚ → Except String (List ℚ))
  filter_accel_y : Option (List ℚ → Except String (List ℚ))
  filter_accel_z : Option (List ℚ → Except String (List ℚ))

/-- The core state of `BluetoothDashboard` in src/app.py.
`rows_written` counts the CSV rows appended by the notification
handler; the log sink is external (GUI) and not part of the state. -/
structure AppState where
  is_connected : Bool
  is_capturing : Bool
  is_saving : Bool
  apply_filter : Bool
  sample_count : Nat
  required_samples : Nat
  count_session : Nat
  max_points : Nat
  data_points : List DataPoint
  filtered_data_points : List FPoint
  filter_module : Option FilterModule
  rows_written : Nat

/-- The filter block of `update_plot` (src/app.py lines 798–818): the
channels are computed in source order inside one `try`; the first raise
aborts the whole block. `filter_weight`'s result is indexed only when
non-empty (`[-1] if len(filtered_weights) > 0 else weight`);
`filter_temperature` is called and indexed whenever the input window is
non-empty, so an empty result raises (IndexError); the joint
`filter_accel` result components are indexed only when non-empty; the
per-axis branch requires `filter_accel_x` and then calls
`filter_accel_y`/`filter_accel_z` unconditionally (a missing one raises
AttributeError), each indexed only when the input window is non-empty. -/
def applyFilters (m : FilterModule)
    (weights temps accel_xs accel_ys accel_zs : List ℚ)
    (sd : ValueSample) : Except String FPoint := do
  let plot_weight ←
    match m.filter_weight with
    | some f => do
        let filtered_weights ← f weights accel_zs
        pure (filtered_weights.getLast?.getD sd.weight)
    | none => pure sd.weight
  let plot_temperature ←
    match m.filter_temperature with
    | some f =>
        if temps.length > 0 then do
          let r ← f temps
          match r.getLast? with
          | some v => pure v
          | none => throw "IndexError"
        else pure sd.temperature
    | none => pure sd.temperature
  let (plot_accel_x, plot_accel_y, plot_accel_z) ←
    match m.filter_accel with
    | some f => do
        let (xs, ys, zs) ← f accel_xs accel_ys accel_zs
        pure (xs.getLast?.getD sd.accel_x, ys.getLast?.getD sd.accel_y,
              zs.getLast?.getD sd.accel_z)
    | none =>
        match m.filter_accel_x with
        | some fx => do
            let px ←
              if accel_xs.length > 0 then do
                let r ← fx accel_xs
                match r.getLast? with
                | some v => pure v
                | none => throw "IndexError"
              else pure sd.accel_x
            let py ←
              match m.filter_accel_y with
              | some fy =>
                  if accel_ys.length > 0 then do
                    let r ← fy accel_ys
                    match r.getLast? with
                    | some v => pure v
                    | none => throw "IndexError"
                  else pure sd.accel_y
              | none => throw "AttributeError"
            let pz ←
              match m.filter_accel_z with
              | some fz =>
                  if accel_zs.length > 0 then do
                    let r ← fz accel_zs
                    match r.getLast? with
                    | some v => pure v
                    | none => throw "IndexError"
                  else pure sd.accel_z
              | none => throw "AttributeError"
            pure (px, py, pz)
        | none => pure (sd.accel_x, sd.accel_y, sd.accel_z)
  pure ⟨plot_weight, plot_temperature, plot_accel_x, plot_accel_y,
        plot_accel_z⟩

/-- Python's slice `lst[-n:]`: the last `n` elements, except that
`lst[-0:]` is the whole list. -/
def pySliceLastN (l : List FPoint) (n : Nat) : List FPoint :=
  if n = 0 then l else l.drop (l.length - n)

/-- The resynchronization step at the end of `update_plot`
(src/app.py lines 835–845): if the two buffers diverged, truncate the
filtered buffer to the raw length, or back-fill it with the raw values
of the uncovered tail. -/
def resyncBuffers (raw : List DataPoint) (filt : List FPoint) :
    List FPoint :=
  if filt.length ≠ raw.length then
    if filt.length > raw.length then pySliceLastN filt raw.length
    else
      filt ++ (raw.drop filt.length).map
        (fun dp => ⟨dp.weight, dp.temperature, dp.accel_x, dp.accel_y,
                    dp.accel_z⟩)
  else filt

/-- The filter stage of `update_plot`: plot values default to the
frame's raw values and are replaced by the module's output when
filtering is enabled, a module is loaded, and no channel raises; any
raise is caught, logged, and falls back to the raw values. The second
component records whether the `except` (log-and-fall-back) branch ran. -/
def filterStage (s : AppState) (window : List DataPoint)
    (sd : ValueSample) : FPoint × Bool :=
  if s.apply_filter then
    match s.filter_module with
    | some m =>
        match applyFilters m (window.map (·.weight))
            (window.map (·.temperature)) (window.map (·.accel_x))
            (window.map (·.accel_y)) (window.map (·.accel_z)) sd with
        | .ok p => (p, false)
        | .error _ => (rawFPoint sd, true)
    | none => (rawFPoint sd, false)
  else (rawFPoint sd, false)

/-- The raw data point `update_plot` builds from a frame. -/
def mkDataPoint (timestamp : ℚ) (sd : ValueSample) : DataPoint :=
  ⟨timestamp, sd.weight, sd.temperature, sd.accel_x, sd.accel_y,
   sd.accel_z⟩

/-- The raw window `update_plot` works on after appending the new point
and evicting the oldest one on overflow. -/
def currentRawWindow (s : AppState) (timestamp : ℚ) (sd : ValueSample) :
    List DataPoint :=
  let raw1 := s.data_points ++ [mkDataPoint timestamp sd]
  if raw1.length > s.max_points then raw1.tail else raw1

/-- `update_plot` (src/app.py lines 754–878): ignore the frame unless
capturing; append the raw point; if the raw buffer overflows
`max_points`, evict the oldest element of both buffers; run the filter
stage on the current raw window; append the plot point to the filtered
buffer; evict its oldest element if it overflows; resynchronize if the
lengths still differ. Plot-widget updates are external. -/
def update_plot (s : AppState) (timestamp : ℚ) (sd : ValueSample) :
    AppState :=
  if !s.is_capturing then s
  else
    let raw1 := s.data_points ++ [mkDataPoint timestamp sd]
    let raw2 := currentRawWindow s timestamp sd
    let filt1 :=
      if raw1.length > s.max_points then s.filtered_data_points.tail
      else s.filtered_data_points
    let pv := (filterStage s raw2 sd).1
    let filt2 := filt1 ++ [pv]
    let filt3 := if filt2.length > s.max_points then filt2.tail else filt2
    let filt4 := resyncBuffers raw2 filt3
    { s with data_points := raw2, filtered_data_points := filt4 }

/-- `stop_capture` (src/app.py lines 1095–1115). When no capture is
active it logs "No active capture to stop." but does NOT return: the
code falls through to the `try` block. With a client present
(`is_connected`) it awaits `stop_notify`; on success it clears
`is_capturing` and increments `count_session`; a failure (or the
AttributeError raised on a `None` client before any transport call) is
caught and leaves the state unchanged. The returned `Bool` records
whether a transport unsubscribe was attempted. -/
def stop_capture_app (unsubOk : Bool) (s : AppState) : AppState × Bool :=
  if s.is_connected then
    if unsubOk then
      ({ s with is_capturing := false,
                count_session := s.count_session + 1 }, true)
    else (s, true)
  else (s, false)

/-- `start_capture` (src/app.py lines 1036–1093): return unchanged when
already capturing, not connected, the UUID is unresolvable, the sample
-count input is not a positive integer, or no CSV file is set (the
required-samples field is already assigned before the CSV check); then
clear the raw buffer (the filtered buffer is NOT cleared), zero the
sample count, and await `start_notify`: on success set `is_capturing`,
on failure leave it unset. -/
def start_capture_app (subOk : Bool) (reqInput : Int) (uuidOk csvOk : Bool)
    (s : AppState) : AppState :=
  if s.is_capturing then s
  else if !s.is_connected then s
  else if !uuidOk then s
  else if reqInput ≤ 0 then s
  else
    let s1 := { s with required_samples := reqInput.toNat }
    if !csvOk then s1
    else
      let s2 := { s1 with data_points := [], sample_count := 0 }
      if subOk then { s2 with is_capturing := true } else s2

/-- `complete_reset` (src/app.py lines 623–667). It first clears both
buffers, zeroes the sample count and restores the default required
samples (100), interleaved with GUI-widget resets; then line 645 runs
`self.filter_checkbox.setChecked(False)` — but `filter_checkbox` is
initialized to `None` (app.py line 33) and is never assigned a widget
anywhere in the program (the Apply checkbox is stored in
`self.apply_filter`, line 230), so this call raises `AttributeError`
unconditionally. The function therefore aborts mid-clear: the
statements after line 645 (`apply_filter = False`, the curve clears,
the button updates and the re-enabling of the reset button) never run.
The model returns the state as mutated up to the raise, paired with
the raised error. -/
def complete_reset (s : AppState) : AppState × Option String :=
  ({ s with data_points := [], filtered_data_points := [],
            sample_count := 0, required_samples := 100 },
   some "AttributeError")

/-- `reset_app` (src/app.py lines 680–689): when capturing or connected
it only schedules the asynchronous cleanup (no synchronous state
change, no raise); from Disconnected it runs `complete_reset`
immediately and does not catch its `AttributeError`. -/
def reset_app (s : AppState) : AppState × Option String :=
  if s.is_capturing || s.is_connected then (s, none)
  else complete_reset s

/-- `notification_handler` (src/app.py lines 910–943) on a frame that
decoded successfully: drop it unless capturing; run `update_plot`; then,
when saving, either trigger the auto-stop (the completion check
`sample_count >= required_samples` runs BEFORE the increment: it clears
`is_capturing`, awaits `stop_capture`, and returns without recording
the frame) or count the frame and append its CSV row. -/
def notification_handler_app (unsubOk : Bool) (timestamp : ℚ)
    (sd : ValueSample) (s : AppState) : AppState :=
  if s.is_capturing then
    let s1 := update_plot s timestamp sd
    if s1.is_saving then
      if s1.is_capturing && decide (s1.required_samples ≤ s1.sample_count) then
        (stop_capture_app unsubOk { s1 with is_capturing := false }).1
      else
        { s1 with sample_count := s1.sample_count + 1,
                  rows_written := s1.rows_written + 1 }
    else s1
  else s

/-! ## The reduced variant (src/bl_app.py `BluetoothDashboard`)

This variant keeps a single raw plot buffer and no saving flag. -/

/-- The core state of the src/bl_app.py variant. -/
structure BLState where
  is_connected : Bool
  is_capturing : Bool
  sample_count : Nat
  required_samples : Nat
  max_points : Nat
  data_points : List DataPoint
  rows_written : Nat
deriving DecidableEq, Repr

/-- `update_plot` (src/bl_app.py lines 582–620): append the raw point
and evict the oldest when over `max_points`; curve updates are
external. -/
def update_plot_bl (s : BLState) (timestamp : ℚ) (sd : ValueSample) :
    BLState :=
  if !s.is_capturing then s
  else
    let dp : DataPoint := ⟨timestamp, sd.weight, sd.temperature,
      sd.accel_x, sd.accel_y, sd.accel_z⟩
    let raw1 := s.data_points ++ [dp]
    { s with data_points :=
        if raw1.length > s.max_points then raw1.tail else raw1 }

/-- `stop_capture` (src/bl_app.py lines 814–830): return immediately
(warning only) when not capturing; otherwise await `stop_notify` and on
success clear `is_capturing`; a failure is caught and changes nothing.
The returned `Bool` records whether an unsubscribe was attempted. -/
def stop_capture_bl (unsubOk : Bool) (s : BLState) : BLState × Bool :=
  if !s.is_capturing then (s, false)
  else if s.is_connected then
    if unsubOk then ({ s with is_capturing := false }, true)
    else (s, true)
  else (s, false)

/-- `notification_handler` (src/bl_app.py lines 652–677) on a frame
that decoded successfully: drop it unless capturing; increment the
sample count, append the CSV row, update the plot, and when the count
has reached `required_samples` await `stop_capture`. -/
def notification_handler_bl (unsubOk : Bool) (timestamp : ℚ)
    (sd : ValueSample) (s : BLState) : BLState :=
  if s.is_capturing then
    let s1 := { s with sample_count := s.sample_count + 1,
                       rows_written := s.rows_written + 1 }
    let s2 := update_plot_bl s1 timestamp sd
    if s2.required_samples ≤ s2.sample_count then
      (stop_capture_bl unsubOk s2).1
    else s2
  else s

/-- Delivery of `n` identical valid frames to the src/app.py handler. -/
def runFramesApp (unsubOk : Bool) (timestamp : ℚ) (sd : ValueSample) :
    Nat → AppState → AppState
  | 0, s => s
  | n + 1, s =>
      runFramesApp unsubOk timestamp sd n
        (notification_handler_app unsubOk timestamp sd s)

/-- Delivery of `n` identical valid frames to the src/bl_app.py
handler. -/
def runFramesBl (unsubOk : Bool) (timestamp : ℚ) (sd : ValueSample) :
    Nat → BLState → BLState
  | 0, s => s
  | n + 1, s =>
      runFramesBl unsubOk timestamp sd n
        (notification_handler_bl unsubOk timestamp sd s)

/-- A sequence of `update_plot` calls, one per delivered frame. -/
def runUpdates (s : AppState) : List (ℚ × ValueSample) → AppState
  | [] => s
  | (t, sd) :: rest => runUpdates (update_plot s t sd) rest

end BTLogger

open BTLogger

theorem pyChainedLe_eq_not_outsideIcc (lo hi : ℤ) (x : F32) :
    pyChainedLe lo x hi = !(x.outsideIcc lo hi) := by
  cases x with
  | finite n =>
      simp only [pyChainedLe, F32.outsideIcc, Bool.not_or]
      rcases lt_or_ge n lo with h | h
      · simp [h, not_le.mpr h]
      · rcases lt_or_ge hi n with h2 | h2
        · simp [h2, not_le.mpr h2]
        · simp [h, h2, not_lt.mpr h, not_lt.mpr h2]
  | inf b => rfl
  | nan => rfl

theorem le32_encodeWord (w : Nat) (hw : w < 2 ^ 32) :
    le32 (w % 256) (w / 256 % 256) (w / 2 ^ 16 % 256) (w / 2 ^ 24 % 256) = w := by
  simp only [le32]
  omega


/-- C7: for every byte string whose length is not 20, `decode_sensor_data`
returns the length error carrying the actual length and the raw bytes
(the hex dump), and never a sample; the branch structure admits no other
outcome. -/
theorem c7_decode_length_error (bs : List Nat) (h : bs.length ≠ 20) :
    decode_sensor_data bs = .error (.length bs.length bs) := by
  simp [decode_sensor_data, h]

theorem c7_decode_length_error_witness :
    decode_sensor_data [0] = .error (.length 1 [0]) :=
  c7_decode_length_error [0] (by decide)

/-- C6: for every 20-byte frame whose weight field is not the sentinel,
if the decoded temperature lies outside [0, 85] or any decoded
acceleration component lies outside [-8, 8] (bounds scaled by `2 ^ 149`
as in `F32.finite`), decoding returns one of the two range errors; and
at the exact boundary values 0.0, 85.0, -8.0 and 8.0 decoding succeeds
(the bounds are inclusive). -/
theorem c6_decode_range_errors_and_inclusive_bounds :
    (∀ bs : List Nat, bs.length = 20 →
        word32At bs 0 ≠ 4294967295 →
        ((f32ValOfBits (word32At bs 4)).outsideIcc temp_min temp_max ||
         (f32ValOfBits (word32At bs 8)).outsideIcc accel_min accel_max ||
         (f32ValOfBits (word32At bs 12)).outsideIcc accel_min accel_max ||
         (f32ValOfBits (word32At bs 16)).outsideIcc accel_min accel_max) = true →
        ∃ e, decode_sensor_data bs = .error e ∧ e.isRange = true) ∧
    decode_sensor_data [1,0,0,0, 0,0,0,0, 0,0,0,65, 0,0,0,193, 0,0,0,0] =
      .ok ⟨1, .finite 0, .finite (8 * 2 ^ 149), .finite (-8 * 2 ^ 149),
           .finite 0⟩ ∧
    decode_sensor_data [1,0,0,0, 0,0,170,66, 0,0,0,193, 0,0,0,65, 0,0,0,0] =
      .ok ⟨1, .finite (85 * 2 ^ 149), .finite (-8 * 2 ^ 149),
           .finite (8 * 2 ^ 149), .finite 0⟩ := by
  refine ⟨?_, by decide, by decide⟩
  intro bs hlen hw hout
  by_cases ht : pyChainedLe temp_min (f32ValOfBits (word32At bs 4)) temp_max
  · have htout : (f32ValOfBits (word32At bs 4)).outsideIcc temp_min temp_max
        = false := by
      have := pyChainedLe_eq_not_outsideIcc temp_min temp_max
        (f32ValOfBits (word32At bs 4))
      rw [ht] at this
      simpa using this.symm
    refine ⟨.accelRange (f32ValOfBits (word32At bs 8))
      (f32ValOfBits (word32At bs 12)) (f32ValOfBits (word32At bs 16)) bs,
      ?_, rfl⟩
    have haccel : (pyChainedLe accel_min (f32ValOfBits (word32At bs 8)) accel_max &&
        pyChainedLe accel_min (f32ValOfBits (word32At bs 12)) accel_max &&
        pyChainedLe accel_min (f32ValOfBits (word32At bs 16)) accel_max) = false := by
      rw [htout] at hout
      rw [pyChainedLe_eq_not_outsideIcc accel_min accel_max
            (f32ValOfBits (word32At bs 8)),
          pyChainedLe_eq_not_outsideIcc accel_min accel_max
            (f32ValOfBits (word32At bs 12)),
          pyChainedLe_eq_not_outsideIcc accel_min accel_max
            (f32ValOfBits (word32At bs 16))]
      revert hout
      cases (f32ValOfBits (word32At bs 8)).outsideIcc accel_min accel_max <;>
        cases (f32ValOfBits (word32At bs 12)).outsideIcc accel_min accel_max <;>
          cases (f32ValOfBits (word32At bs 16)).outsideIcc accel_min accel_max <;>
            simp
    simp [decode_sensor_data, hlen, hw, ht, haccel]
  · exact ⟨.tempRange (f32ValOfBits (word32At bs 4)) bs,
      by simp [decode_sensor_data, hlen, hw, ht], rfl⟩

theorem c6_decode_range_errors_witness :
    ∃ e, decode_sensor_data
        [1,0,0,0, 0,0,200,66, 0,0,0,65, 0,0,0,193, 0,0,0,0] = .error e ∧
      e.isRange = true :=
  c6_decode_range_errors_and_inclusive_bounds.1
    [1,0,0,0, 0,0,200,66, 0,0,0,65, 0,0,0,193, 0,0,0,0]
    (by decide) (by decide) (by decide)

/-- C10: the decoder's validation order is fixed: for every 20-byte frame
whose weight field is the sentinel 0xFFFFFFFF, decoding returns the
sentinel error no matter what the temperature and acceleration fields
hold; and for every 20-byte frame whose weight is not the sentinel but
whose temperature is out of range, decoding returns the temperature
range error no matter what the acceleration fields hold (sentinel check
before range checks, temperature check before acceleration check). -/
theorem c10_decode_validation_order :
    (∀ bs : List Nat, bs.length = 20 → word32At bs 0 = 4294967295 →
        decode_sensor_data bs = .error (.sentinel bs)) ∧
    (∀ bs : List Nat, bs.length = 20 → word32At bs 0 ≠ 4294967295 →
        (f32ValOfBits (word32At bs 4)).outsideIcc temp_min temp_max = true →
        decode_sensor_data bs =
          .error (.tempRange (f32ValOfBits (word32At bs 4)) bs)) := by
  constructor
  · intro bs hlen hw
    simp [decode_sensor_data, hlen, hw]
  · intro bs hlen hw ht
    have hple : pyChainedLe temp_min (f32ValOfBits (word32At bs 4)) temp_max
        = false := by
      rw [pyChainedLe_eq_not_outsideIcc, ht]; rfl
    simp [decode_sensor_data, hlen, hw, hple]

theorem c10_decode_validation_order_witness :
    decode_sensor_data [255,255,255,255, 0,0,200,66, 0,0,0,65, 0,0,32,65, 0,0,0,0]
      = .error (.sentinel
          [255,255,255,255, 0,0,200,66, 0,0,0,65, 0,0,32,65, 0,0,0,0]) :=
  c10_decode_validation_order.1
    [255,255,255,255, 0,0,200,66, 0,0,0,65, 0,0,32,65, 0,0,0,0]
    (by decide) (by decide)

/-- C8: round-trip: encoding a sample whose fields satisfy all validity
bounds (weight below 2^32 and distinct from the sentinel, each float
word below 2^32 with decoded value inside its bound) as little-endian
u32 weight followed by the four little-endian f32 words temperature,
accel_x, accel_y, accel_z, and decoding the resulting 20 bytes, yields
exactly the original weight and the exact values of the original float
words. -/
theorem c8_decode_encode_roundtrip (w t x y z : Nat)
    (hw32 : w < 2 ^ 32) (ht32 : t < 2 ^ 32) (hx32 : x < 2 ^ 32)
    (hy32 : y < 2 ^ 32) (hz32 : z < 2 ^ 32)
    (hw : w ≠ 4294967295)
    (ht : (f32ValOfBits t).outsideIcc temp_min temp_max = false)
    (hx : (f32ValOfBits x).outsideIcc accel_min accel_max = false)
    (hy : (f32ValOfBits y).outsideIcc accel_min accel_max = false)
    (hz : (f32ValOfBits z).outsideIcc accel_min accel_max = false) :
    decode_sensor_data (encodeSample w t x y z) =
      .ok ⟨w, f32ValOfBits t, f32ValOfBits x, f32ValOfBits y,
           f32ValOfBits z⟩ := by
  have hlen : (encodeSample w t x y z).length = 20 := rfl
  have h0 : word32At (encodeSample w t x y z) 0 = w := by
    show le32 (w % 256) (w / 256 % 256) (w / 2 ^ 16 % 256) (w / 2 ^ 24 % 256) = w
    exact le32_encodeWord w hw32
  have h4 : word32At (encodeSample w t x y z) 4 = t := by
    show le32 (t % 256) (t / 256 % 256) (t / 2 ^ 16 % 256) (t / 2 ^ 24 % 256) = t
    exact le32_encodeWord t ht32
  have h8 : word32At (encodeSample w t x y z) 8 = x := by
    show le32 (x % 256) (x / 256 % 256) (x / 2 ^ 16 % 256) (x / 2 ^ 24 % 256) = x
    exact le32_encodeWord x hx32
  have h12 : word32At (encodeSample w t x y z) 12 = y := by
    show le32 (y % 256) (y / 256 % 256) (y / 2 ^ 16 % 256) (y / 2 ^ 24 % 256) = y
    exact le32_encodeWord y hy32
  have h16 : word32At (encodeSample w t x y z) 16 = z := by
    show le32 (z % 256) (z / 256 % 256) (z / 2 ^ 16 % 256) (z / 2 ^ 24 % 256) = z
    exact le32_encodeWord z hz32
  have hpt : pyChainedLe temp_min (f32ValOfBits t) temp_max = true := by
    rw [pyChainedLe_eq_not_outsideIcc, ht]; rfl
  have hpx : pyChainedLe accel_min (f32ValOfBits x) accel_max = true := by
    rw [pyChainedLe_eq_not_outsideIcc, hx]; rfl
  have hpy : pyChainedLe accel_min (f32ValOfBits y) accel_max = true := by
    rw [pyChainedLe_eq_not_outsideIcc, hy]; rfl
  have hpz : pyChainedLe accel_min (f32ValOfBits z) accel_max = true := by
    rw [pyChainedLe_eq_not_outsideIcc, hz]; rfl
  simp [decode_sensor_data, hlen, h0, h4, h8, h12, h16, hw, hpt, hpx, hpy, hpz]

theorem c8_decode_encode_roundtrip_witness :
    decode_sensor_data (encodeSample 2 1118437376 1090519040 3238002688 0) =
      .ok ⟨2, f32ValOfBits 1118437376, f32ValOfBits 1090519040,
           f32ValOfBits 3238002688, f32ValOfBits 0⟩ :=
  c8_decode_encode_roundtrip 2 1118437376 1090519040 3238002688 0
    (by decide) (by decide) (by decide) (by decide) (by decide)
    (by decide) (by decide) (by decide) (by decide) (by decide)

theorem update_plot_max_points (s : AppState) (t : ℚ) (sd : ValueSample) :
    (update_plot s t sd).max_points = s.max_points := by
  simp only [update_plot]; split <;> rfl

theorem update_plot_is_capturing (s : AppState) (t : ℚ) (sd : ValueSample) :
    (update_plot s t sd).is_capturing = s.is_capturing := by
  simp only [update_plot]; split <;> rfl

theorem update_plot_is_saving (s : AppState) (t : ℚ) (sd : ValueSample) :
    (update_plot s t sd).is_saving = s.is_saving := by
  simp only [update_plot]; split <;> rfl

theorem update_plot_is_connected (s : AppState) (t : ℚ) (sd : ValueSample) :
    (update_plot s t sd).is_connected = s.is_connected := by
  simp only [update_plot]; split <;> rfl

theorem update_plot_sample_count (s : AppState) (t : ℚ) (sd : ValueSample) :
    (update_plot s t sd).sample_count = s.sample_count := by
  simp only [update_plot]; split <;> rfl

theorem update_plot_required_samples (s : AppState) (t : ℚ)
    (sd : ValueSample) :
    (update_plot s t sd).required_samples = s.required_samples := by
  simp only [update_plot]; split <;> rfl

theorem update_plot_rows_written (s : AppState) (t : ℚ) (sd : ValueSample) :
    (update_plot s t sd).rows_written = s.rows_written := by
  simp only [update_plot]; split <;> rfl

theorem resyncBuffers_length (raw : List DataPoint) (filt : List FPoint)
    (h : raw ≠ []) :
    (resyncBuffers raw filt).length = raw.length := by
  by_cases heq : filt.length = raw.length
  · simp [resyncBuffers, heq]
  · by_cases hgt : filt.length > raw.length
    · have hr : raw.length ≠ 0 := by
        intro h0; exact h (List.eq_nil_of_length_eq_zero h0)
      simp [resyncBuffers, heq, hgt, pySliceLastN, hr]
      omega
    · simp [resyncBuffers, heq, hgt]
      omega

theorem currentRawWindow_ne_nil (s : AppState) (t : ℚ) (sd : ValueSample)
    (hmax : 0 < s.max_points) : currentRawWindow s t sd ≠ [] := by
  intro hraw2
  by_cases hev :
      (s.data_points ++ [mkDataPoint t sd]).length > s.max_points
  · rw [currentRawWindow, if_pos hev] at hraw2
    have := congrArg List.length hraw2
    simp only [List.length_tail, List.length_append, List.length_cons,
      List.length_nil] at this hev
    omega
  · rw [currentRawWindow, if_neg hev] at hraw2
    have := congrArg List.length hraw2
    simp only [List.length_append, List.length_cons, List.length_nil] at this
    omega

theorem update_plot_length_eq (s : AppState) (t : ℚ) (sd : ValueSample)
    (hmax : 0 < s.max_points)
    (hlen : s.data_points.length = s.filtered_data_points.length) :
    (update_plot s t sd).data_points.length
      = (update_plot s t sd).filtered_data_points.length := by
  by_cases hcap : s.is_capturing
  · simp only [update_plot, hcap, Bool.not_true, Bool.false_eq_true, if_false]
    rw [resyncBuffers_length _ _ (currentRawWindow_ne_nil s t sd hmax)]
  · simp [update_plot, hcap, hlen]

/-- C2: for every sequence of frame deliveries into `update_plot`
(each appending the raw point, running the filtered-point append and
the `max_points` eviction/resync logic), starting from a state whose
two buffers have equal length (as the initial empty buffers do) and
whose capacity is positive, the invariant
`len(data_points) = len(filtered_data_points)` holds after every
operation. -/
theorem c2_buffer_length_invariant (frames : List (ℚ × ValueSample))
    (s : AppState) (hmax : 0 < s.max_points)
    (hlen : s.data_points.length = s.filtered_data_points.length) :
    (runUpdates s frames).data_points.length
      = (runUpdates s frames).filtered_data_points.length := by
  induction frames generalizing s with
  | nil => exact hlen
  | cons f rest ih =>
      obtain ⟨t, sd⟩ := f
      exact ih (update_plot s t sd)
        (by rw [update_plot_max_points]; exact hmax)
        (update_plot_length_eq s t sd hmax hlen)

/-- A quiescent disconnected state used to instantiate the theorems. -/
def idleState : AppState :=
  { is_connected := false, is_capturing := false, is_saving := true,
    apply_filter := false, sample_count := 0, required_samples := 100,
    count_session := 0, max_points := 100, data_points := [],
    filtered_data_points := [], filter_module := none, rows_written := 0 }

/-- A fixed valid frame value used to instantiate the theorems. -/
def frame0 : ValueSample := ⟨50, 25, 1, -1, 4⟩

theorem c2_buffer_length_invariant_witness :
    (runUpdates { idleState with is_capturing := true }
        [(0, frame0), (1, frame0), (2, frame0)]).data_points.length
      = (runUpdates { idleState with is_capturing := true }
          [(0, frame0), (1, frame0), (2, frame0)]).filtered_data_points.length :=
  c2_buffer_length_invariant [(0, frame0), (1, frame0), (2, frame0)]
    { idleState with is_capturing := true } (by decide) rfl

/-- C3: the claim (reset from Disconnected never throws and both calls
leave the same cleared initial state) is the spec's intent, but the
code violates it: for every Disconnected state, `reset_app` runs
`complete_reset`, which raises `AttributeError` (app.py line 645,
`filter_checkbox` being permanently `None`) after the buffers, the
sample count and the required-samples default have been cleared but
before `apply_filter` is reset or the reset affordance is re-armed:
the reset throws and aborts mid-clear. -/
theorem c3_reset_from_disconnected_raises (s : AppState)
    (hconn : s.is_connected = false) (hcap : s.is_capturing = false) :
    (reset_app s).2 = some "AttributeError" ∧
    (reset_app s).1.data_points = [] ∧
    (reset_app s).1.filtered_data_points = [] ∧
    (reset_app s).1.sample_count = 0 ∧
    (reset_app s).1.required_samples = 100 ∧
    (reset_app s).1.apply_filter = s.apply_filter := by
  simp [reset_app, complete_reset, hconn, hcap]

theorem c3_reset_from_disconnected_raises_witness :
    (reset_app { idleState with apply_filter := true }).2
      = some "AttributeError" ∧
    (reset_app { idleState with apply_filter := true }).1.data_points
      = [] ∧
    (reset_app
        { idleState with apply_filter := true }).1.filtered_data_points
      = [] ∧
    (reset_app { idleState with apply_filter := true }).1.sample_count
      = 0 ∧
    (reset_app
        { idleState with apply_filter := true }).1.required_samples
      = 100 ∧
    (reset_app { idleState with apply_filter := true }).1.apply_filter
      = true :=
  c3_reset_from_disconnected_raises
    { idleState with apply_filter := true } rfl rfl

/-- A connected, non-capturing src/app.py state with a few completed
sessions. -/
def connectedIdle : AppState :=
  { idleState with is_connected := true, count_session := 7 }

/-- A connected, non-capturing state of the src/bl_app.py variant. -/
def blConnectedIdle : BLState :=
  { is_connected := true, is_capturing := false, sample_count := 0,
    required_samples := 100, max_points := 100, data_points := [],
    rows_written := 0 }

/-- C4: in the src/bl_app.py variant, `stop_capture` while not
capturing is a pure no-op (warning only): no unsubscribe is attempted
and the state is unchanged — exactly as the claim states. In src/app.py,
however, the guard lacks the early return: called while not capturing
but connected, `stop_capture` attempts the transport unsubscribe and,
when it succeeds, increments the completed-session counter. The second
conjunct evaluates src/app.py's `stop_capture` at such a state. -/
theorem c4_stop_capture_while_not_capturing :
    (∀ (unsubOk : Bool) (b : BLState), b.is_capturing = false →
        stop_capture_bl unsubOk b = (b, false)) ∧
    (stop_capture_app true connectedIdle).2 = true ∧
    (stop_capture_app true connectedIdle).1.count_session = 8 := by
  refine ⟨?_, by decide, by decide⟩
  intro u b hb
  simp [stop_capture_bl, hb]

theorem c4_stop_capture_while_not_capturing_witness :
    stop_capture_bl true blConnectedIdle = (blConnectedIdle, false) :=
  c4_stop_capture_while_not_capturing.1 true blConnectedIdle rfl

/-- A connected src/app.py state carrying leftover data from an earlier
capture in both buffers. -/
def leftoverState : AppState :=
  { idleState with
      is_connected := true
      sample_count := 5
      data_points := [⟨0, 50, 25, 1, -1, 4⟩]
      filtered_data_points := [⟨50, 25, 1, -1, 4⟩] }

/-- C5 counterexample: a successful `start_capture` from a state with a
leftover filtered point transitions to Capturing with the raw buffer
cleared and `sample_count` zeroed, but the filtered buffer is NOT
cleared — refuting "both the raw data-point buffer and the filtered
data-point buffer are empty". -/
theorem c5_counterexample_filtered_not_cleared :
    (start_capture_app true 3 true true leftoverState).is_capturing = true ∧
    (start_capture_app true 3 true true leftoverState).data_points = [] ∧
    (start_capture_app true 3 true true leftoverState).sample_count = 0 ∧
    (start_capture_app true 3 true true leftoverState).filtered_data_points
      ≠ [] := by
  refine ⟨by decide, by decide, by decide, by decide⟩

/-- C5 amended: a `start_capture` that passes all guards clears the raw
buffer and resets `sample_count` to 0, and on transport success
transitions to Capturing, but leaves the filtered buffer exactly as it
was (it is resynchronized only on the next processed frame). -/
theorem c5_start_capture_clears_raw_only (subOk : Bool) (req : Int)
    (s : AppState) (hcap : s.is_capturing = false)
    (hconn : s.is_connected = true) (hreq : 0 < req) :
    (start_capture_app subOk req true true s).data_points = [] ∧
    (start_capture_app subOk req true true s).sample_count = 0 ∧
    (start_capture_app subOk req true true s).filtered_data_points
      = s.filtered_data_points ∧
    (subOk = true →
      (start_capture_app subOk req true true s).is_capturing = true) := by
  have hneg : ¬ req ≤ 0 := by omega
  cases subOk with
  | false =>
      simp [start_capture_app, hcap, hconn, hneg]
  | true =>
      simp [start_capture_app, hcap, hconn, hneg]

theorem c5_start_capture_clears_raw_only_witness :
    (start_capture_app true 3 true true leftoverState).data_points = [] ∧
    (start_capture_app true 3 true true leftoverState).sample_count = 0 ∧
    (start_capture_app true 3 true true leftoverState).filtered_data_points
      = leftoverState.filtered_data_points ∧
    (true = true →
      (start_capture_app true 3 true true leftoverState).is_capturing
        = true) :=
  c5_start_capture_clears_raw_only true 3 leftoverState rfl rfl
    (by decide)

theorem resyncBuffers_of_length_eq (raw : List DataPoint)
    (filt : List FPoint) (h : filt.length = raw.length) :
    resyncBuffers raw filt = filt := by
  simp [resyncBuffers, h]

theorem update_plot_buffers (s : AppState) (t : ℚ) (sd : ValueSample)
    (hmax : 0 < s.max_points)
    (hcapacity : s.data_points.length ≤ s.max_points)
    (hlen : s.data_points.length = s.filtered_data_points.length)
    (hcap : s.is_capturing = true) :
    (update_plot s t sd).data_points
        = (if s.data_points.length + 1 > s.max_points
           then s.data_points.tail else s.data_points)
          ++ [mkDataPoint t sd] ∧
    (update_plot s t sd).filtered_data_points
        = (if s.data_points.length + 1 > s.max_points
           then s.filtered_data_points.tail else s.filtered_data_points)
          ++ [(filterStage s (currentRawWindow s t sd) sd).1] := by
  simp only [update_plot, hcap, Bool.not_true, Bool.false_eq_true, if_false]
  by_cases hev : (s.data_points ++ [mkDataPoint t sd]).length > s.max_points
  · have hev' : s.data_points.length + 1 > s.max_points := by
      simpa using hev
    have hn : s.data_points.length = s.max_points := by omega
    have hdne : s.data_points ≠ [] := by
      intro h0
      rw [h0] at hn
      simp at hn
      omega
    have hraw2 : currentRawWindow s t sd
        = s.data_points.tail ++ [mkDataPoint t sd] := by
      rw [currentRawWindow, if_pos hev,
        List.tail_append_singleton_of_ne_nil hdne]
    have hflen : (s.filtered_data_points.tail
        ++ [(filterStage s (currentRawWindow s t sd) sd).1]).length
        = (currentRawWindow s t sd).length := by
      rw [hraw2]
      simp only [List.length_append, List.length_tail, List.length_cons,
        List.length_nil]
      omega
    have hnotover : ¬ ((s.filtered_data_points.tail
        ++ [(filterStage s (currentRawWindow s t sd) sd).1]).length
          > s.max_points) := by
      rw [hflen, hraw2]
      simp only [List.length_append, List.length_tail, List.length_cons,
        List.length_nil]
      omega
    rw [if_pos hev, if_pos hev', if_pos hev', if_neg hnotover,
      resyncBuffers_of_length_eq _ _ hflen, hraw2]
    exact ⟨rfl, rfl⟩
  · have hev' : ¬ (s.data_points.length + 1 > s.max_points) := by
      intro h
      exact hev (by simpa using h)
    have hraw2 : currentRawWindow s t sd
        = s.data_points ++ [mkDataPoint t sd] := by
      rw [currentRawWindow, if_neg hev]
    have hflen : (s.filtered_data_points
        ++ [(filterStage s (currentRawWindow s t sd) sd).1]).length
        = (currentRawWindow s t sd).length := by
      rw [hraw2]
      simp only [List.length_append, List.length_cons, List.length_nil]
      omega
    have hnotover : ¬ ((s.filtered_data_points
        ++ [(filterStage s (currentRawWindow s t sd) sd).1]).length
          > s.max_points) := by
      rw [hflen, hraw2]
      simp only [List.length_append, List.length_cons, List.length_nil]
      omega
    rw [if_neg hev, if_neg hev', if_neg hev', if_neg hnotover,
      resyncBuffers_of_length_eq _ _ hflen, hraw2]
    exact ⟨rfl, rfl⟩

theorem filterStage_error (s : AppState) (window : List DataPoint)
    (sd : ValueSample) (m : FilterModule) (e : String)
    (hfilt : s.apply_filter = true) (hmod : s.filter_module = some m)
    (hfail : applyFilters m (window.map (·.weight))
        (window.map (·.temperature)) (window.map (·.accel_x))
        (window.map (·.accel_y)) (window.map (·.accel_z)) sd
      = .error e) :
    filterStage s window sd = (rawFPoint sd, true) := by
  simp [filterStage, hfilt, hmod, hfail]

/-- C9: when the filter pipeline is applied to the current window and
the active filter module raises for any channel, the delivered plot
point for this call falls back to the frame's raw values, the
log-and-fall-back branch runs, the raw point is still appended, the two
buffers stay synchronized, and (the model being a total function,
mirroring the catch-all `except`) no error propagates out of the
per-frame handler. -/
theorem c9_filter_exception_fallback (s : AppState) (t : ℚ)
    (sd : ValueSample) (m : FilterModule) (e : String)
    (hmax : 0 < s.max_points)
    (hcapacity : s.data_points.length ≤ s.max_points)
    (hlen : s.data_points.length = s.filtered_data_points.length)
    (hcap : s.is_capturing = true)
    (hfilt : s.apply_filter = true)
    (hmod : s.filter_module = some m)
    (hfail : applyFilters m
        ((currentRawWindow s t sd).map (·.weight))
        ((currentRawWindow s t sd).map (·.temperature))
        ((currentRawWindow s t sd).map (·.accel_x))
        ((currentRawWindow s t sd).map (·.accel_y))
        ((currentRawWindow s t sd).map (·.accel_z)) sd = .error e) :
    (update_plot s t sd).filtered_data_points.getLast?
      = some (rawFPoint sd) ∧
    (update_plot s t sd).data_points.getLast?
      = some (mkDataPoint t sd) ∧
    (update_plot s t sd).data_points.length
      = (update_plot s t sd).filtered_data_points.length ∧
    (filterStage s (currentRawWindow s t sd) sd).2 = true := by
  have hfs := filterStage_error s (currentRawWindow s t sd) sd m e
    hfilt hmod hfail
  obtain ⟨hdata, hfiltered⟩ :=
    update_plot_buffers s t sd hmax hcapacity hlen hcap
  refine ⟨?_, ?_, update_plot_length_eq s t sd hmax hlen, by rw [hfs]⟩
  · rw [hfiltered, hfs]
    exact List.getLast?_concat _
  · rw [hdata]
    exact List.getLast?_concat _

theorem app_handler_mid (u : Bool) (t : ℚ) (sd : ValueSample)
    (s : AppState) (hcap : s.is_capturing = true)
    (hsav : s.is_saving = true)
    (hlt : s.sample_count < s.required_samples) :
    (notification_handler_app u t sd s).is_capturing = true ∧
    (notification_handler_app u t sd s).is_saving = true ∧
    (notification_handler_app u t sd s).is_connected = s.is_connected ∧
    (notification_handler_app u t sd s).sample_count
      = s.sample_count + 1 ∧
    (notification_handler_app u t sd s).required_samples
      = s.required_samples ∧
    (notification_handler_app u t sd s).rows_written
      = s.rows_written + 1 := by
  have hdec : decide (s.required_samples ≤ s.sample_count) = false :=
    decide_eq_false (Nat.not_le.mpr hlt)
  simp only [notification_handler_app, hcap, if_true,
    update_plot_is_saving, hsav, update_plot_is_capturing,
    update_plot_is_connected, update_plot_sample_count,
    update_plot_required_samples, update_plot_rows_written, hdec,
    Bool.and_false, Bool.false_eq_true, if_false]
  exact ⟨trivial, trivial, trivial, trivial, trivial, trivial⟩

theorem app_handler_complete (t : ℚ) (sd : ValueSample) (s : AppState)
    (hcap : s.is_capturing = true) (hsav : s.is_saving = true)
    (hge : s.required_samples ≤ s.sample_count)
    (hconn : s.is_connected = true) :
    (notification_handler_app true t sd s).is_capturing = false ∧
    (notification_handler_app true t sd s).is_connected = true ∧
    (notification_handler_app true t sd s).sample_count
      = s.sample_count ∧
    (notification_handler_app true t sd s).rows_written
      = s.rows_written := by
  have hdec : decide (s.required_samples ≤ s.sample_count) = true :=
    decide_eq_true hge
  simp only [notification_handler_app, hcap, if_true,
    update_plot_is_saving, hsav, update_plot_is_capturing,
    update_plot_is_connected, update_plot_sample_count,
    update_plot_required_samples, update_plot_rows_written, hdec,
    Bool.and_true, if_true, stop_capture_app, hconn]
  exact ⟨trivial, trivial, trivial, trivial⟩

theorem runFramesApp_succ (u : Bool) (t : ℚ) (sd : ValueSample)
    (n : Nat) (s : AppState) :
    runFramesApp u t sd (n + 1) s
      = notification_handler_app u t sd (runFramesApp u t sd n s) := by
  induction n generalizing s with
  | zero => rfl
  | succ m ih =>
      show runFramesApp u t sd (m + 1) (notification_handler_app u t sd s)
        = _
      rw [ih]
      rfl

theorem app_run_mid (u : Bool) (t : ℚ) (sd : ValueSample) (k : Nat) :
    ∀ s : AppState, s.is_capturing = true → s.is_saving = true →
      s.sample_count + k ≤ s.required_samples →
      (runFramesApp u t sd k s).is_capturing = true ∧
      (runFramesApp u t sd k s).is_saving = true ∧
      (runFramesApp u t sd k s).is_connected = s.is_connected ∧
      (runFramesApp u t sd k s).sample_count = s.sample_count + k ∧
      (runFramesApp u t sd k s).required_samples
        = s.required_samples := by
  induction k with
  | zero => exact fun s h1 h2 _ => ⟨h1, h2, rfl, rfl, rfl⟩
  | succ n ih =>
      intro s h1 h2 h3
      obtain ⟨a1, a2, a3, a4, a5, a6⟩ :=
        app_handler_mid u t sd s h1 h2 (by omega)
      have hrec := ih (notification_handler_app u t sd s) a1 a2
        (by rw [a4, a5]; omega)
      have hunf : runFramesApp u t sd (n + 1) s
          = runFramesApp u t sd n (notification_handler_app u t sd s) := rfl
      rw [hunf]
      refine ⟨hrec.1, hrec.2.1, ?_, ?_, ?_⟩
      · rw [hrec.2.2.1, a3]
      · rw [hrec.2.2.2.1, a4]; omega
      · rw [hrec.2.2.2.2, a5]

theorem update_plot_bl_is_capturing (s : BLState) (t : ℚ)
    (sd : ValueSample) :
    (update_plot_bl s t sd).is_capturing = s.is_capturing := by
  simp only [update_plot_bl]; split <;> rfl

theorem update_plot_bl_is_connected (s : BLState) (t : ℚ)
    (sd : ValueSample) :
    (update_plot_bl s t sd).is_connected = s.is_connected := by
  simp only [update_plot_bl]; split <;> rfl

theorem update_plot_bl_sample_count (s : BLState) (t : ℚ)
    (sd : ValueSample) :
    (update_plot_bl s t sd).sample_count = s.sample_count := by
  simp only [update_plot_bl]; split <;> rfl

theorem update_plot_bl_required_samples (s : BLState) (t : ℚ)
    (sd : ValueSample) :
    (update_plot_bl s t sd).required_samples = s.required_samples := by
  simp only [update_plot_bl]; split <;> rfl

theorem bl_handler_mid (u : Bool) (t : ℚ) (sd : ValueSample)
    (b : BLState) (hcap : b.is_capturing = true)
    (hlt : b.sample_count + 1 < b.required_samples) :
    (notification_handler_bl u t sd b).is_capturing = true ∧
    (notification_handler_bl u t sd b).is_connected = b.is_connected ∧
    (notification_handler_bl u t sd b).sample_count
      = b.sample_count + 1 ∧
    (notification_handler_bl u t sd b).required_samples
      = b.required_samples := by
  have hcond : ¬ (b.required_samples ≤ b.sample_count + 1) := by omega
  simp only [notification_handler_bl, hcap, if_true,
    update_plot_bl_is_capturing, update_plot_bl_is_connected,
    update_plot_bl_sample_count, update_plot_bl_required_samples]
  rw [if_neg hcond]
  simp only [update_plot_bl_is_capturing, update_plot_bl_is_connected,
    update_plot_bl_sample_count, update_plot_bl_required_samples]
  exact ⟨trivial, trivial, trivial, trivial⟩

theorem bl_handler_complete (t : ℚ) (sd : ValueSample) (b : BLState)
    (hcap : b.is_capturing = true) (hconn : b.is_connected = true)
    (hge : b.required_samples ≤ b.sample_count + 1) :
    (notification_handler_bl true t sd b).is_capturing = false ∧
    (notification_handler_bl true t sd b).is_connected = true ∧
    (notification_handler_bl true t sd b).sample_count
      = b.sample_count + 1 := by
  simp only [notification_handler_bl, hcap, if_true,
    update_plot_bl_is_capturing, update_plot_bl_is_connected,
    update_plot_bl_sample_count, update_plot_bl_required_samples]
  rw [if_pos hge]
  simp only [stop_capture_bl, update_plot_bl_is_capturing,
    update_plot_bl_is_connected, update_plot_bl_sample_count, hconn,
    Bool.not_true, Bool.false_eq_true, if_false, if_true]
  exact ⟨trivial, trivial, trivial⟩

theorem runFramesBl_succ (u : Bool) (t : ℚ) (sd : ValueSample)
    (n : Nat) (b : BLState) :
    runFramesBl u t sd (n + 1) b
      = notification_handler_bl u t sd (runFramesBl u t sd n b) := by
  induction n generalizing b with
  | zero => rfl
  | succ m ih =>
      have hunf : runFramesBl u t sd (m + 1 + 1) b
          = runFramesBl u t sd (m + 1) (notification_handler_bl u t sd b) :=
        rfl
      rw [hunf, ih]
      rfl

theorem bl_run_mid (u : Bool) (t : ℚ) (sd : ValueSample) (k : Nat) :
    ∀ b : BLState, b.is_capturing = true →
      b.sample_count + k < b.required_samples →
      (runFramesBl u t sd k b).is_capturing = true ∧
      (runFramesBl u t sd k b).is_connected = b.is_connected ∧
      (runFramesBl u t sd k b).sample_count = b.sample_count + k ∧
      (runFramesBl u t sd k b).required_samples
        = b.required_samples := by
  induction k with
  | zero => exact fun b h1 _ => ⟨h1, rfl, rfl, rfl⟩
  | succ n ih =>
      intro b h1 h2
      obtain ⟨a1, a2, a3, a4⟩ := bl_handler_mid u t sd b h1 (by omega)
      have hrec := ih (notification_handler_bl u t sd b) a1
        (by rw [a3, a4]; omega)
      have hunf : runFramesBl u t sd (n + 1) b
          = runFramesBl u t sd n (notification_handler_bl u t sd b) := rfl
      rw [hunf]
      refine ⟨hrec.1, ?_, ?_, ?_⟩
      · rw [hrec.2.1, a2]
      · rw [hrec.2.2.1, a3]; omega
      · rw [hrec.2.2.2, a4]

/-- C1 amended: with `required_samples = N > 0`, in the src/bl_app.py
variant the N-th valid frame itself makes the recorder report
completion and the controller transition Capturing → Connected; in
src/app.py the completion check precedes the increment, so after the
N-th frame the state is still Capturing with `sample_count = N`, and
the transition to Connected happens only on the (N+1)-th valid frame
(which is itself not counted). -/
theorem c1_auto_stop (t : ℚ) (sd : ValueSample) (N : Nat)
    (s : AppState) (b : BLState) (hN : 0 < N)
    (hs1 : s.is_capturing = true) (hs2 : s.is_saving = true)
    (hs3 : s.is_connected = true) (hs4 : s.sample_count = 0)
    (hs5 : s.required_samples = N)
    (hb1 : b.is_capturing = true) (hb2 : b.is_connected = true)
    (hb3 : b.sample_count = 0) (hb4 : b.required_samples = N) :
    (runFramesApp true t sd N s).is_capturing = true ∧
    (runFramesApp true t sd N s).sample_count = N ∧
    (runFramesApp true t sd (N + 1) s).is_capturing = false ∧
    (runFramesApp true t sd (N + 1) s).is_connected = true ∧
    (runFramesApp true t sd (N + 1) s).sample_count = N ∧
    (runFramesBl true t sd N b).is_capturing = false ∧
    (runFramesBl true t sd N b).is_connected = true ∧
    (runFramesBl true t sd N b).sample_count = N := by
  obtain ⟨p1, p2, p3, p4, p5⟩ := app_run_mid true t sd N s hs1 hs2
    (by omega)
  have hstop := app_handler_complete t sd (runFramesApp true t sd N s)
    p1 p2 (by rw [p5, p4]; omega) (by rw [p3]; exact hs3)
  obtain ⟨M, rfl⟩ : ∃ M, N = M + 1 := ⟨N - 1, by omega⟩
  obtain ⟨q1, q2, q3, q4⟩ := bl_run_mid true t sd M b hb1 (by omega)
  have hblstop := bl_handler_complete t sd (runFramesBl true t sd M b)
    q1 (by rw [q2]; exact hb2) (by rw [q3, q4]; omega)
  rw [runFramesApp_succ true t sd (M + 1) s]
  rw [runFramesBl_succ true t sd M b]
  refine ⟨p1, by rw [p4, hs4]; omega, hstop.1, hstop.2.1,
    by rw [hstop.2.2.1, p4, hs4]; omega, hblstop.1, hblstop.2.1,
    by rw [hblstop.2.2, q3, hb3]; omega⟩

/-- A filter module whose weight channel always raises. -/
def failingFilterModule : FilterModule :=
  { filter_weight := some fun _ _ => .error "boom",
    filter_temperature := none, filter_accel := none,
    filter_accel_x := none, filter_accel_y := none,
    filter_accel_z := none }

/-- A capturing state with filtering enabled and the raising module
loaded. -/
def filteringState : AppState :=
  { idleState with
      is_capturing := true
      apply_filter := true
      filter_module := some failingFilterModule }

theorem c9_filter_exception_fallback_witness :
    (update_plot filteringState 0 frame0).filtered_data_points.getLast?
      = some (rawFPoint frame0) ∧
    (update_plot filteringState 0 frame0).data_points.getLast?
      = some (mkDataPoint 0 frame0) ∧
    (update_plot filteringState 0 frame0).data_points.length
      = (update_plot filteringState 0 frame0).filtered_data_points.length ∧
    (filterStage filteringState
        (currentRawWindow filteringState 0 frame0) frame0).2 = true :=
  c9_filter_exception_fallback filteringState 0 frame0 failingFilterModule
    "boom" (by decide) (by decide) rfl rfl rfl rfl rfl

/-- A capturing, connected, saving src/app.py state with
`required_samples = 1`. -/
def captureState1 : AppState :=
  { idleState with
      is_connected := true
      is_capturing := true
      required_samples := 1 }

/-- C1 counterexample: in src/app.py with `required_samples = 1`, after
the 1st (the N-th) valid frame the state is still Capturing with the
session counted, refuting "after exactly the N-th valid frame ... the
controller automatically transitions from Capturing to Connected; no
further frame beyond the N-th is needed": only the 2nd frame stops
capture. -/
theorem c1_counterexample_nth_frame_does_not_stop :
    (runFramesApp true 0 frame0 1 captureState1).is_capturing = true ∧
    (runFramesApp true 0 frame0 1 captureState1).sample_count = 1 ∧
    (runFramesApp true 0 frame0 2 captureState1).is_capturing = false := by
  refine ⟨rfl, rfl, rfl⟩

/-- A capturing, connected, saving src/app.py state with
`required_samples = 3`. -/
def captureState3 : AppState :=
  { idleState with
      is_connected := true
      is_capturing := true
      required_samples := 3 }

/-- A capturing, connected src/bl_app.py state with
`required_samples = 3`. -/
def blCaptureState3 : BLState :=
  { blConnectedIdle with
      is_capturing := true
      required_samples := 3 }

theorem c1_auto_stop_witness :
    (runFramesApp true 0 frame0 3 captureState3).is_capturing = true ∧
    (runFramesApp true 0 frame0 3 captureState3).sample_count = 3 ∧
    (runFramesApp true 0 frame0 4 captureState3).is_capturing = false ∧
    (runFramesApp true 0 frame0 4 captureState3).is_connected = true ∧
    (runFramesApp true 0 frame0 4 captureState3).sample_count = 3 ∧
    (runFramesBl true 0 frame0 3 blCaptureState3).is_capturing = false ∧
    (runFramesBl true 0 frame0 3 blCaptureState3).is_connected = true ∧
    (runFramesBl true 0 frame0 3 blCaptureState3).sample_count = 3 :=
  c1_auto_stop 0 frame0 3 captureState3 blCaptureState3 (by decide)
    rfl rfl rfl rfl rfl rfl rfl rfl rfl
